import Mathlib

/-
  Verification development for the charls-rs JPEG-LS ingestion front-end.

  Shallow embedding of:
    - src/decoding_error.rs   (DecodingError)
    - src/jpeg_stream_reader.rs (FrameInfo, ReaderState, JpegStreamReader and its
      methods read_u8, read_next_marker_code, read_header)

  The byte source (the `R: Read` parameter of `JpegStreamReader`) is modelled as a
  finite list of read outcomes: `some b` delivers the byte `b`, `none` is a read
  on which the underlying reader reports an I/O failure.  `read_exact` on a
  one-byte buffer either delivers the next byte or fails; the Rust code maps any
  such failure to `DecodingError::UnknownError`, which the model mirrors.
  Reading past the end of the list is the end-of-input failure.
-/

namespace CharlsRs

/-- Modelled from the spec: the crate module `jpeg_marker_code.rs` (the
`JpegMarkerCode` enum and its fallible `TryFrom<u8>` conversion) is used by
`jpeg_stream_reader.rs` but is not among the provided source files.  Per spec
section 4.1 the catalog recognises Start-Of-Image = 0xD8, End-Of-Image = 0xD9,
Start-Of-Scan = 0xDA, the JPEG-LS Start-Of-Frame marker (0xF7), the
Application-Data markers 0xE0..0xEF and the comment marker (0xFE), and fails
for every byte with no defined meaning in scope (in particular 0xF9, the
extended JPEG-LS frame type outside this profile, per spec section 8). -/
inductive JpegMarkerCode where
  | StartOfImage
  | EndOfImage
  | StartOfScan
  | StartOfFrameJpegls
  | ApplicationData (n : Nat)
  | Comment
  deriving DecidableEq, Repr

/-- Modelled from the spec: the fallible byte-to-marker lookup of the missing
`jpeg_marker_code.rs`; on failure it reports the offending byte. -/
def JpegMarkerCode.try_from (value : Nat) : Except Nat JpegMarkerCode :=
  if value = 0xD8 then .ok .StartOfImage
  else if value = 0xD9 then .ok .EndOfImage
  else if value = 0xDA then .ok .StartOfScan
  else if value = 0xF7 then .ok .StartOfFrameJpegls
  else if 0xE0 ≤ value ∧ value ≤ 0xEF then .ok (.ApplicationData (value - 0xE0))
  else if value = 0xFE then .ok .Comment
  else .error value

/-- The error enumeration of src/decoding_error.rs. -/
inductive DecodingError where
  | IoError
  | JpegMarkerStartByteNotFound
  | StartOfImageMarkerNotFound
  | UnknownError
  deriving DecidableEq, Repr

/-- FrameInfo of src/jpeg_stream_reader.rs (u32/u8 fields embedded as Nat). -/
structure FrameInfo where
  width : Nat
  height : Nat
  bits_per_sample : Nat
  component_count : Nat
  deriving DecidableEq, Repr

/-- ReaderState of src/jpeg_stream_reader.rs. -/
inductive ReaderState where
  | BeforeStartOfImage
  | HeaderSection
  | SpiffHeaderSection
  | ImageSection
  | FrameSection
  | ScanSection
  | BitStreamSection
  | AfterEndOfImage
  deriving DecidableEq, Repr

/-- Position of a state in the declared ordering of `ReaderState`. -/
def ReaderState.index : ReaderState → Nat
  | .BeforeStartOfImage => 0
  | .HeaderSection => 1
  | .SpiffHeaderSection => 2
  | .ImageSection => 3
  | .FrameSection => 4
  | .ScanSection => 5
  | .BitStreamSection => 6
  | .AfterEndOfImage => 7

/-- The byte source: each element is either a delivered byte or an I/O fault. -/
abbrev Src := List (Option Nat)

/-- A pure byte stream (no I/O faults) as a source. -/
def bytes (l : List Nat) : Src := l.map some

/-- JpegStreamReader of src/jpeg_stream_reader.rs; the `reader` field is the
not-yet-consumed part of the byte source. -/
structure JpegStreamReader where
  reader : Src
  frame_info : FrameInfo
  state : ReaderState
  deriving DecidableEq, Repr

/-- JpegStreamReader::new — zeroed FrameInfo, state BeforeStartOfImage. -/
def JpegStreamReader.new (r : Src) : JpegStreamReader :=
  { reader := r
    frame_info := { width := 0, height := 0, bits_per_sample := 0, component_count := 0 }
    state := .BeforeStartOfImage }

/-- JpegStreamReader::read_u8 — `read_exact` on a one-byte buffer; any failure
of the underlying reader (end of input or I/O fault) becomes `UnknownError`.
Returns the result together with the remaining source. -/
def read_u8 : Src → (Except DecodingError Nat) × Src
  | [] => (.error .UnknownError, [])
  | none :: rest => (.error .UnknownError, none :: rest)
  | some b :: rest => (.ok b, rest)

/-- The fill-byte loop of read_next_marker_code: with the current value known
to be 0xFF, keep calling read_u8 while the value read equals 0xFF
(`while value == 255 { value = self.read_u8()?; }`). -/
def skip_fill : Src → (Except DecodingError Nat) × Src
  | [] => (.error .UnknownError, [])
  | none :: rest => (.error .UnknownError, none :: rest)
  | some b :: rest => if b = 255 then skip_fill rest else (.ok b, rest)

/-- JpegStreamReader::read_next_marker_code — one byte which must be 0xFF
(else `JpegMarkerStartByteNotFound`), fill-byte absorption, then the marker
catalog conversion whose failure the code reports as
`StartOfImageMarkerNotFound`. -/
def read_next_marker_code (s : Src) : (Except DecodingError JpegMarkerCode) × Src :=
  match read_u8 s with
  | (.error e, s1) => (.error e, s1)
  | (.ok value, s1) =>
    if value ≠ 255 then (.error .JpegMarkerStartByteNotFound, s1)
    else
      match skip_fill s1 with
      | (.error e, s2) => (.error e, s2)
      | (.ok value2, s2) =>
        match JpegMarkerCode.try_from value2 with
        | .error _ => (.error .StartOfImageMarkerNotFound, s2)
        | .ok m => (.ok m, s2)

/-- JpegStreamReader::read_header — in state BeforeStartOfImage demands the
first marker to be Start-Of-Image (advancing to HeaderSection on success);
in every other state returns Ok without touching the source. -/
def read_header (r : JpegStreamReader) : (Except DecodingError Unit) × JpegStreamReader :=
  if r.state = ReaderState.BeforeStartOfImage then
    match read_next_marker_code r.reader with
    | (.error e, s) => (.error e, { r with reader := s })
    | (.ok m, s) =>
      if m ≠ JpegMarkerCode.StartOfImage then
        (.error .StartOfImageMarkerNotFound, { r with reader := s })
      else
        (.ok (), { r with reader := s, state := .HeaderSection })
  else (.ok (), r)

/-- Rust `Result::unwrap` made explicit: `none` is the unreachable-panic case. -/
def unwrapOrPanic {ε α : Type} : Except ε α → Option α
  | .ok a => some a
  | .error _ => none

/-- read_next_marker_code with the source's `is_err` guard and `unwrap` call
kept explicit: the outer `Option` is `none` exactly when the `unwrap` would
panic. -/
def read_next_marker_code_with_panic (s : Src) :
    Option ((Except DecodingError JpegMarkerCode) × Src) :=
  match read_u8 s with
  | (.error e, s1) => some (.error e, s1)
  | (.ok value, s1) =>
    if value ≠ 255 then some (.error .JpegMarkerStartByteNotFound, s1)
    else
      match skip_fill s1 with
      | (.error e, s2) => some (.error e, s2)
      | (.ok value2, s2) =>
        if (JpegMarkerCode.try_from value2).isOk = false then
          some (.error .StartOfImageMarkerNotFound, s2)
        else
          match unwrapOrPanic (JpegMarkerCode.try_from value2) with
          | none => none
          | some m => some (.ok m, s2)

/-- read_header built on the panic-explicit marker reader. -/
def read_header_with_panic (r : JpegStreamReader) :
    Option ((Except DecodingError Unit) × JpegStreamReader) :=
  if r.state = ReaderState.BeforeStartOfImage then
    match read_next_marker_code_with_panic r.reader with
    | none => none
    | some (.error e, s) => some (.error e, { r with reader := s })
    | some (.ok m, s) =>
      if m ≠ JpegMarkerCode.StartOfImage then
        some (.error .StartOfImageMarkerNotFound, { r with reader := s })
      else
        some (.ok (), { r with reader := s, state := .HeaderSection })
  else some (.ok (), r)

/-- The two public operations a caller can invoke on a reader. -/
inductive ReaderOp where
  | readHeaderOp
  | readMarkerOp
  deriving DecidableEq, Repr

/-- Effect of one public call on the reader (results discarded):
read_header may change state and consumes source bytes;
read_next_marker_code only consumes source bytes. -/
def applyOp (r : JpegStreamReader) : ReaderOp → JpegStreamReader
  | .readHeaderOp => (read_header r).2
  | .readMarkerOp => { r with reader := (read_next_marker_code r.reader).2 }

/-- A whole session: a sequence of public calls starting from some reader. -/
def runOps (r : JpegStreamReader) : List ReaderOp → JpegStreamReader
  | [] => r
  | op :: ops => runOps (applyOp r op) ops

/-- The concrete stream of the spec scenario: Start-Of-Image, then a JPEG-LS
Start-Of-Frame segment (precision 2, height 1, width 1, one component with
id 0, sampling 0x11, table 0), then a Start-Of-Scan segment (one component
id 0, near-lossless 1, interleave 0). -/
def demo_stream : List Nat :=
  [0xFF, 0xD8,
   0xFF, 0xF7, 0x00, 0x0B, 0x02, 0x00, 0x01, 0x00, 0x01, 0x01, 0x00, 0x11, 0x00,
   0xFF, 0xDA, 0x00, 0x08, 0x01, 0x00, 0x00, 0x01, 0x00, 0x00]

/-- Mapping a pure byte stream into the source model distributes over cons. -/
theorem bytes_cons (b : Nat) (l : List Nat) : bytes (b :: l) = some b :: bytes l := rfl

/-- Mapping a pure byte stream into the source model distributes over append. -/
theorem bytes_append (l1 l2 : List Nat) : bytes (l1 ++ l2) = bytes l1 ++ bytes l2 := by
  simp [bytes]

/-- Mapping a pure byte stream into the source model maps replicate to replicate. -/
theorem bytes_replicate (n b : Nat) :
    bytes (List.replicate n b) = List.replicate n (some b) := by
  simp [bytes]

/-- The fill loop absorbs any run of 0xFF bytes and returns the first other byte. -/
theorem skip_fill_replicate_fill (n c : Nat) (t : Src) (hc : c ≠ 255) :
    skip_fill (List.replicate n (some 255) ++ some c :: t) = (.ok c, t) := by
  induction n with
  | zero => simp [skip_fill, hc]
  | succ n ih => simp [List.replicate_succ, skip_fill, ih]

/-- The fill loop on a source of nothing but 0xFF bytes runs out of input. -/
theorem skip_fill_all_fill (n : Nat) :
    skip_fill (List.replicate n (some 255)) = (.error .UnknownError, []) := by
  induction n with
  | zero => simp [skip_fill]
  | succ n ih => simp [List.replicate_succ, skip_fill, ih]

/-- A successful fill-loop run means the source began with a (possibly empty)
run of 0xFF bytes followed by the returned byte. -/
theorem skip_fill_ok_shape :
    ∀ {s : Src} {c : Nat} {t : Src}, skip_fill s = (.ok c, t) →
      ∃ n, s = List.replicate n (some 255) ++ some c :: t ∧ c ≠ 255 := by
  intro s
  induction s with
  | nil => intro c t h; simp [skip_fill] at h
  | cons hd tl ih =>
    intro c t h
    match hd with
    | none => simp [skip_fill] at h
    | some b =>
      by_cases hb : b = 255
      · subst hb
        simp only [skip_fill, if_pos rfl] at h
        obtain ⟨n, htl, hc⟩ := ih h
        exact ⟨n + 1, by simp [List.replicate_succ, htl], hc⟩
      · simp [skip_fill, hb] at h
        obtain ⟨hbc, htl⟩ := h
        exact ⟨0, by simp [hbc, htl], hbc ▸ hb⟩

/-- A successful read_next_marker_code run means the source began with a 0xFF
prefix byte, a run of 0xFF fill bytes, and a recognised code byte. -/
theorem read_next_marker_code_ok_shape :
    ∀ {s : Src} {m : JpegMarkerCode} {t : Src},
      read_next_marker_code s = (.ok m, t) →
      ∃ n c, s = some 255 :: (List.replicate n (some 255) ++ some c :: t) ∧
        c ≠ 255 ∧ JpegMarkerCode.try_from c = .ok m := by
  intro s m t h
  match s with
  | [] => simp [read_next_marker_code, read_u8] at h
  | none :: rest => simp [read_next_marker_code, read_u8] at h
  | some b :: rest =>
    by_cases hb : b = 255
    · subst hb
      simp only [read_next_marker_code, read_u8, ne_eq, not_true_eq_false,
        if_false, ite_false] at h
      split at h
      · simp at h
      · next v2 s2 hsf =>
        split at h
        · simp at h
        · next m2 ht =>
          simp only [Prod.mk.injEq, Except.ok.injEq] at h
          obtain ⟨hm, hs2⟩ := h
          obtain ⟨n, hrest, hv2⟩ := skip_fill_ok_shape hsf
          exact ⟨n, v2, by rw [hrest, hs2], hv2, by rw [ht, hm]⟩
    · simp [read_next_marker_code, read_u8, hb] at h

/-- read_next_marker_code on a source holding only 0xFF bytes (possibly none)
runs out of input, reporting UnknownError and consuming everything. -/
theorem read_next_marker_code_all_fill (k : Nat) :
    read_next_marker_code (List.replicate k (some 255)) = (.error .UnknownError, []) := by
  cases k with
  | zero => simp [read_next_marker_code, read_u8]
  | succ k => simp [read_next_marker_code, read_u8, List.replicate_succ, skip_fill_all_fill]

/-- C1 counterexample: on the concrete Start-Of-Image / Start-Of-Frame /
Start-Of-Scan stream, read_header does return success, but the resulting
FrameInfo is not the claimed {width = 1, height = 1, bits_per_sample = 2,
component_count = 1} (it is still all zero) and the reader has not reached
ScanSection, refuting the claim that the Start-Of-Frame payload is decoded
and frame_info reports the image parameters. -/
theorem c1_counterexample :
    (read_header (JpegStreamReader.new (bytes demo_stream))).1 = .ok () ∧
    (read_header (JpegStreamReader.new (bytes demo_stream))).2.frame_info ≠
      { width := 1, height := 1, bits_per_sample := 2, component_count := 1 } ∧
    (read_header (JpegStreamReader.new (bytes demo_stream))).2.state ≠
      ReaderState.ScanSection :=
  ⟨rfl, by decide, by decide⟩

/-- C1 (corrected): on the concrete Start-Of-Image / Start-Of-Frame /
Start-Of-Scan stream, read_header returns success after consuming only the
two Start-Of-Image bytes, transitioning BeforeStartOfImage to HeaderSection;
the Start-Of-Frame and Start-Of-Scan segments are left unread and the
FrameInfo stays {width = 0, height = 0, bits_per_sample = 0,
component_count = 0}. -/
theorem c1_theorem :
    read_header (JpegStreamReader.new (bytes demo_stream)) =
      (.ok (), { reader := bytes (demo_stream.drop 2)
                 frame_info := { width := 0, height := 0, bits_per_sample := 0,
                                 component_count := 0 }
                 state := ReaderState.HeaderSection }) := rfl

/-- C4 (code_bug): on the stream 0xFF 0xD8 0xFF 0xF9 0xDA, read_header
returns success after consuming only the Start-Of-Image marker and never
examines the unsupported extended frame-type byte 0xF9, while the claim (and
the repository's own test read_header_with_jpegls_extended_frame_throws,
which asserts an error) requires the call to fail. -/
theorem c4_theorem :
    read_header (JpegStreamReader.new (bytes [0xFF, 0xD8, 0xFF, 0xF9, 0xDA])) =
      (.ok (), { reader := bytes [0xFF, 0xF9, 0xDA]
                 frame_info := { width := 0, height := 0, bits_per_sample := 0,
                                 component_count := 0 }
                 state := ReaderState.HeaderSection }) := rfl

/-- C5 (confirmed): for every stream whose first byte is not 0xFF, read_header
fails with JpegMarkerStartByteNotFound (the code's name for the spec's
MarkerPrefixNotFound), consuming exactly the offending byte and leaving the
state at BeforeStartOfImage; it never succeeds, and totality of the embedding
shows no panic. -/
theorem c5_theorem (b : Nat) (bs : List Nat) (hb : b ≠ 255) :
    read_header (JpegStreamReader.new (bytes (b :: bs))) =
      (.error .JpegMarkerStartByteNotFound,
        { reader := bytes bs
          frame_info := { width := 0, height := 0, bits_per_sample := 0,
                          component_count := 0 }
          state := ReaderState.BeforeStartOfImage }) := by
  simp [read_header, JpegStreamReader.new, read_next_marker_code, read_u8, bytes, hb]

/-- C5 witness: the two concrete scenarios, input [0x01] and input
[0x0F, 0xFF, 0xD8, 0xFF, 0xFF, 0xDA], both fail with
JpegMarkerStartByteNotFound. -/
theorem c5_witness :
    read_header (JpegStreamReader.new (bytes [0x01])) =
      (.error .JpegMarkerStartByteNotFound,
        { reader := bytes []
          frame_info := { width := 0, height := 0, bits_per_sample := 0,
                          component_count := 0 }
          state := ReaderState.BeforeStartOfImage }) ∧
    read_header (JpegStreamReader.new (bytes [0x0F, 0xFF, 0xD8, 0xFF, 0xFF, 0xDA])) =
      (.error .JpegMarkerStartByteNotFound,
        { reader := bytes [0xFF, 0xD8, 0xFF, 0xFF, 0xDA]
          frame_info := { width := 0, height := 0, bits_per_sample := 0,
                          component_count := 0 }
          state := ReaderState.BeforeStartOfImage }) :=
  ⟨c5_theorem 0x01 [] (by decide),
   c5_theorem 0x0F [0xFF, 0xD8, 0xFF, 0xFF, 0xDA] (by decide)⟩

/-- C3 counterexample: on the stream 0xFF 0x01 the marker-catalog conversion
fails for the byte 0x01, yet read_next_marker_code reports
StartOfImageMarkerNotFound — an error kind the spec reserves for a missing
first Start-Of-Image marker, which carries no byte — rather than a dedicated
unrecognized-marker kind. -/
theorem c3_counterexample :
    JpegMarkerCode.try_from 0x01 = .error 0x01 ∧
    read_next_marker_code (bytes [0xFF, 0x01]) =
      (.error .StartOfImageMarkerNotFound, []) ∧
    DecodingError.StartOfImageMarkerNotFound ≠ DecodingError.JpegMarkerStartByteNotFound :=
  ⟨rfl, rfl, by decide⟩

/-- C3 (corrected): whenever read_next_marker_code finds a correct 0xFF prefix
plus any run of fill bytes but the catalog conversion of the code byte fails,
it fails with StartOfImageMarkerNotFound (the kind the code reuses for
catalog failures; no byte is carried), not with any other error kind. -/
theorem c3_theorem (n c : Nat) (t : List Nat) (hc : c ≠ 255)
    (hcat : (JpegMarkerCode.try_from c).isOk = false) :
    read_next_marker_code (bytes (255 :: (List.replicate n 255 ++ c :: t))) =
      (.error .StartOfImageMarkerNotFound, bytes t) := by
  have hb : bytes (255 :: (List.replicate n 255 ++ c :: t)) =
      some 255 :: (List.replicate n (some 255) ++ some c :: bytes t) := by
    simp [bytes]
  rw [hb]
  rcases ht : JpegMarkerCode.try_from c with e | m
  · simp [read_next_marker_code, read_u8, skip_fill_replicate_fill n c (bytes t) hc, ht]
  · rw [ht] at hcat; simp [Except.isOk, Except.toBool] at hcat

/-- C3 witness: the theorem applied to the stream 0xFF 0x01 (no fill bytes,
code byte 0x01 unrecognised by the catalog). -/
theorem c3_witness :
    read_next_marker_code (bytes (255 :: (List.replicate 0 255 ++ 0x01 :: []))) =
      (.error .StartOfImageMarkerNotFound, bytes []) :=
  c3_theorem 0 0x01 [] (by decide) (by decide)

/-- C6 (confirmed): on a reader in state BeforeStartOfImage whose marker read
succeeds, read_header transitions the state to HeaderSection when that first
marker is Start-Of-Image, and fails with StartOfImageMarkerNotFound when it
is any other recognised marker. -/
theorem c6_theorem (r : JpegStreamReader) (m : JpegMarkerCode) (s : Src)
    (hstate : r.state = ReaderState.BeforeStartOfImage)
    (hread : read_next_marker_code r.reader = (.ok m, s)) :
    (m = JpegMarkerCode.StartOfImage →
      read_header r = (.ok (), { r with reader := s, state := .HeaderSection })) ∧
    (m ≠ JpegMarkerCode.StartOfImage →
      read_header r = (.error .StartOfImageMarkerNotFound, { r with reader := s })) := by
  constructor
  · intro hm
    simp [read_header, hstate, hread, hm]
  · intro hm
    simp [read_header, hstate, hread, hm]

/-- C6 witness: on the stream 0xFF 0xD8 the first marker is Start-Of-Image and
the state advances to HeaderSection; the hypotheses are discharged on the
concrete reader. -/
theorem c6_witness :
    (JpegMarkerCode.StartOfImage = JpegMarkerCode.StartOfImage →
      read_header (JpegStreamReader.new (bytes [0xFF, 0xD8])) =
        (.ok (), { JpegStreamReader.new (bytes [0xFF, 0xD8]) with
                     reader := [], state := .HeaderSection })) ∧
    (JpegMarkerCode.StartOfImage ≠ JpegMarkerCode.StartOfImage →
      read_header (JpegStreamReader.new (bytes [0xFF, 0xD8])) =
        (.error .StartOfImageMarkerNotFound,
          { JpegStreamReader.new (bytes [0xFF, 0xD8]) with reader := [] })) :=
  c6_theorem (JpegStreamReader.new (bytes [0xFF, 0xD8]))
    JpegMarkerCode.StartOfImage [] rfl rfl

/-- C7 (confirmed): whenever read_header returns an error, the reader state
after the call is exactly the state before the call, for every input. -/
theorem c7_theorem (r : JpegStreamReader) (e : DecodingError) (r2 : JpegStreamReader)
    (h : read_header r = (.error e, r2)) : r2.state = r.state := by
  unfold read_header at h
  by_cases hs : r.state = ReaderState.BeforeStartOfImage
  · rw [if_pos hs] at h
    split at h
    · simp only [Prod.mk.injEq] at h
      rw [← h.2]
    · split at h
      · simp only [Prod.mk.injEq] at h
        rw [← h.2]
      · simp at h
  · rw [if_neg hs] at h
    simp at h

/-- C7 witness: on input [0x01] read_header fails and the state is still
BeforeStartOfImage, the state the reader was constructed with. -/
theorem c7_witness :
    (JpegStreamReader.mk []
      { width := 0, height := 0, bits_per_sample := 0, component_count := 0 }
      ReaderState.BeforeStartOfImage).state =
      (JpegStreamReader.new (bytes [0x01])).state :=
  c7_theorem (JpegStreamReader.new (bytes [0x01])) .JpegMarkerStartByteNotFound
    (JpegStreamReader.mk []
      { width := 0, height := 0, bits_per_sample := 0, component_count := 0 }
      ReaderState.BeforeStartOfImage) rfl

/-- C8 (confirmed): inserting any number N of extra 0xFF fill bytes
immediately before a marker's code byte changes neither the result of
read_next_marker_code nor the result of read_header: both agree exactly with
the N = 0 stream, including the remaining source. -/
theorem c8_theorem (n c : Nat) (t : List Nat) (hc : c ≠ 255) :
    read_next_marker_code (bytes (255 :: (List.replicate n 255 ++ c :: t))) =
      read_next_marker_code (bytes (255 :: c :: t)) ∧
    read_header (JpegStreamReader.new (bytes (255 :: (List.replicate n 255 ++ c :: t)))) =
      read_header (JpegStreamReader.new (bytes (255 :: c :: t))) := by
  have hb : bytes (255 :: (List.replicate n 255 ++ c :: t)) =
      some 255 :: (List.replicate n (some 255) ++ some c :: bytes t) := by
    simp [bytes]
  have hb2 : bytes (255 :: c :: t) = some 255 :: some c :: bytes t := rfl
  have hskip2 : skip_fill (some c :: bytes t) = (.ok c, bytes t) := by
    simp [skip_fill, hc]
  have hm : read_next_marker_code (bytes (255 :: (List.replicate n 255 ++ c :: t))) =
      read_next_marker_code (bytes (255 :: c :: t)) := by
    rw [hb, hb2]
    simp [read_next_marker_code, read_u8,
      skip_fill_replicate_fill n c (bytes t) hc, hskip2]
  refine ⟨hm, ?_⟩
  simp [read_header, JpegStreamReader.new, hm]

/-- C8 witness: two extra fill bytes before the Start-Of-Image code byte leave
both operations with results identical to the unpadded stream. -/
theorem c8_witness :
    read_next_marker_code (bytes (255 :: (List.replicate 2 255 ++ 0xD8 :: []))) =
      read_next_marker_code (bytes (255 :: 0xD8 :: [])) ∧
    read_header (JpegStreamReader.new (bytes (255 :: (List.replicate 2 255 ++ 0xD8 :: [])))) =
      read_header (JpegStreamReader.new (bytes (255 :: 0xD8 :: []))) :=
  c8_theorem 2 0xD8 [] (by decide)

/-- One public call never moves the state backwards in the declared order. -/
theorem applyOp_state_mono (r : JpegStreamReader) (op : ReaderOp) :
    r.state.index ≤ (applyOp r op).state.index := by
  cases op with
  | readMarkerOp => simp [applyOp]
  | readHeaderOp =>
    simp only [applyOp, read_header]
    by_cases hs : r.state = ReaderState.BeforeStartOfImage
    · rw [if_pos hs]
      split
      · simp
      · split
        · simp
        · simp [hs, ReaderState.index]
    · rw [if_neg hs]

/-- Neither public call ever writes the frame_info field. -/
theorem applyOp_frame_info (r : JpegStreamReader) (op : ReaderOp) :
    (applyOp r op).frame_info = r.frame_info := by
  cases op with
  | readMarkerOp => rfl
  | readHeaderOp =>
    simp only [applyOp, read_header]
    by_cases hs : r.state = ReaderState.BeforeStartOfImage
    · rw [if_pos hs]
      split
      · rfl
      · split
        · rfl
        · rfl
    · rw [if_neg hs]

/-- Along a whole session the frame_info field keeps its initial value. -/
theorem runOps_frame_info (ops : List ReaderOp) :
    ∀ r : JpegStreamReader, (runOps r ops).frame_info = r.frame_info := by
  induction ops with
  | nil => intro r; rfl
  | cons op ops ih =>
    intro r
    rw [runOps, ih, applyOp_frame_info]

/-- C9 (confirmed): for every input and every sequence of read_header and
read_next_marker_code calls, the reader state only ever advances through the
declared ReaderState order (each call is monotone in the state index), and
the FrameInfo of a reader built by new stays all zero for the whole session,
so its fields are non-zero only in states FrameSection or later (vacuously:
the skeleton never writes FrameInfo). -/
theorem c9_theorem :
    (∀ (r : JpegStreamReader) (op : ReaderOp),
      r.state.index ≤ (applyOp r op).state.index) ∧
    (∀ (src : Src) (ops : List ReaderOp),
      (runOps (JpegStreamReader.new src) ops).frame_info =
        { width := 0, height := 0, bits_per_sample := 0, component_count := 0 }) ∧
    (∀ (src : Src) (ops : List ReaderOp),
      ((runOps (JpegStreamReader.new src) ops).frame_info.width ≠ 0 ∨
       (runOps (JpegStreamReader.new src) ops).frame_info.height ≠ 0 ∨
       (runOps (JpegStreamReader.new src) ops).frame_info.bits_per_sample ≠ 0 ∨
       (runOps (JpegStreamReader.new src) ops).frame_info.component_count ≠ 0) →
      4 ≤ (runOps (JpegStreamReader.new src) ops).state.index) := by
  refine ⟨applyOp_state_mono, ?_, ?_⟩
  · intro src ops
    rw [runOps_frame_info]
    rfl
  · intro src ops h
    rw [runOps_frame_info] at h
    simp [JpegStreamReader.new] at h

/-- The panic-explicit marker reader never panics and agrees with the plain
embedding: the unwrap in the source is only reached after the is_err check. -/
theorem read_next_marker_code_no_panic (s : Src) :
    read_next_marker_code_with_panic s = some (read_next_marker_code s) := by
  unfold read_next_marker_code_with_panic read_next_marker_code
  rcases h1 : read_u8 s with ⟨e1 | v, s1⟩
  · rfl
  · by_cases hv : v = 255
    · subst hv
      simp only [ne_eq, not_true_eq_false, if_false, ite_false]
      rcases h2 : skip_fill s1 with ⟨e2 | v2, s2⟩
      · rfl
      · rcases h3 : JpegMarkerCode.try_from v2 with e3 | m
        · simp [h3, Except.isOk, Except.toBool, unwrapOrPanic]
        · simp [h3, Except.isOk, Except.toBool, unwrapOrPanic]
    · simp [hv]

/-- The panic-explicit read_header never panics and agrees with the plain
embedding. -/
theorem read_header_no_panic (r : JpegStreamReader) :
    read_header_with_panic r = some (read_header r) := by
  unfold read_header_with_panic read_header
  by_cases hs : r.state = ReaderState.BeforeStartOfImage
  · rw [if_pos hs, if_pos hs, read_next_marker_code_no_panic]
    rcases h : read_next_marker_code r.reader with ⟨e | m, s⟩
    · rfl
    · by_cases hm : m = JpegMarkerCode.StartOfImage <;> simp [hm]
  · rw [if_neg hs, if_neg hs]

/-- C10 (confirmed): read_next_marker_code and read_header are total — the
panic-explicit embeddings, in which the unwrap inside read_next_marker_code
is modelled as the only possible panic site, always return some result and
agree with the plain embeddings (so the unwrap is reached only after the
conversion has been checked not to be an error) — and every failure of the
underlying source (end of input or an I/O fault, at any position) surfaces
as an Err value of read_u8. -/
theorem c10_theorem :
    (∀ s : Src, read_next_marker_code_with_panic s = some (read_next_marker_code s)) ∧
    (∀ r : JpegStreamReader, read_header_with_panic r = some (read_header r)) ∧
    read_u8 [] = (.error .UnknownError, []) ∧
    (∀ rest : Src, read_u8 (none :: rest) = (.error .UnknownError, none :: rest)) :=
  ⟨read_next_marker_code_no_panic, read_header_no_panic, rfl, fun _ => rfl⟩

/-- C2 counterexample: truncating the valid stream 0xFF 0xD8 after one byte
makes read_header fail with UnknownError — the code's DecodingError has no
dedicated UnexpectedEndOfStream kind, and the very same UnknownError kind is
produced when the underlying source reports an I/O fault instead of end of
input, so the end-of-input failure is not a distinct kind as claimed. -/
theorem c2_counterexample :
    (read_header (JpegStreamReader.new (bytes ([0xFF, 0xD8].take 1)))).1 =
      .error .UnknownError ∧
    (read_u8 [none]).1 = .error .UnknownError ∧
    DecodingError.UnknownError ≠ DecodingError.IoError :=
  ⟨rfl, rfl, by decide⟩

/-- C2 (corrected): truncating any stream on which read_header succeeds at any
byte offset strictly inside its consumed part makes both
read_next_marker_code and read_header fail with UnknownError — the one kind
the code uses for an exhausted input, whichever field was being read — never
succeed, and consume at most the truncated bytes (the remaining source is
empty, so exactly the k truncated bytes were read, never past them). -/
theorem c2_theorem (full : List Nat) (r2 : JpegStreamReader)
    (hok : read_header (JpegStreamReader.new (bytes full)) = (.ok (), r2))
    (k : Nat) (hk : k < full.length - r2.reader.length) :
    read_next_marker_code (bytes (full.take k)) = (.error .UnknownError, []) ∧
    read_header (JpegStreamReader.new (bytes (full.take k))) =
      (.error .UnknownError,
        { reader := []
          frame_info := { width := 0, height := 0, bits_per_sample := 0,
                          component_count := 0 }
          state := ReaderState.BeforeStartOfImage }) := by
  simp only [read_header, JpegStreamReader.new, if_true] at hok
  split at hok
  · simp at hok
  · next m s heq =>
    split at hok
    · simp at hok
    · simp only [Prod.mk.injEq, true_and] at hok
      obtain ⟨n, c, hshape, hc, hcat⟩ := read_next_marker_code_ok_shape heq
      have hr2 : r2.reader = s := by rw [← hok]
      have hlen : full.length = n + 2 + s.length := by
        have hl := congrArg List.length hshape
        simp [bytes] at hl
        omega
      have hk2 : k ≤ n + 1 := by
        rw [hlen, hr2] at hk
        omega
      have htake : bytes (full.take k) = List.replicate k (some 255) := by
        have hmt : bytes (full.take k) = (bytes full).take k := by
          simp [bytes, List.map_take]
        rw [hmt, hshape]
        have hrepl : some 255 :: (List.replicate n (some 255) ++ some c :: s) =
            List.replicate (n + 1) (some 255) ++ (some c :: s) := by
          simp [List.replicate_succ]
        rw [hrepl,
          List.take_append_of_le_length (by simpa using hk2),
          List.take_replicate, Nat.min_eq_left hk2]
      rw [htake]
      refine ⟨read_next_marker_code_all_fill k, ?_⟩
      simp [read_header, JpegStreamReader.new, read_next_marker_code_all_fill k]

/-- C2 witness: the valid stream 0xFF 0xD8 (on which read_header succeeds and
consumes both bytes) truncated after its first byte fails with UnknownError
and consumes nothing past the truncation. -/
theorem c2_witness :
    read_next_marker_code (bytes ([0xFF, 0xD8].take 1)) =
      (.error .UnknownError, []) ∧
    read_header (JpegStreamReader.new (bytes ([0xFF, 0xD8].take 1))) =
      (.error .UnknownError,
        { reader := []
          frame_info := { width := 0, height := 0, bits_per_sample := 0,
                          component_count := 0 }
          state := ReaderState.BeforeStartOfImage }) :=
  c2_theorem [0xFF, 0xD8]
    { reader := []
      frame_info := { width := 0, height := 0, bits_per_sample := 0,
                      component_count := 0 }
      state := ReaderState.HeaderSection }
    rfl 1 (by decide)

end CharlsRs
